import Mathlib

/-!
Verification development for the whatsapp-wizard ingestion-to-curation
pipeline.  The JavaScript sources are shallowly embedded as executable Lean
definitions:

* `MessageStorage` (src/unnamed/part_002): `shouldStoreMessage`,
  `checkRateLimit`, the bounded ledger append inside `addMessage`,
  `markMessagesAsProcessed`, `hasUnprocessedMessages`, `triggerCuration`.
* `MessageCurator` (second half of src/messageStorage.js):
  `formatMessagesForCuration`, `curate`, `saveCuratedMessages`,
  `updateNotificationStatus`, `processScrapedMessages`.
* `NotificationService` (src/unnamed/part_001): `sendNotifications`.
* `MessageQueue` (src/unnamed/part_000): the worker body `processMessage`.

Timestamps are rationals (JS `Date.now()` milliseconds), relevance scores are
rationals, message ids and group ids are strings.  File I/O results are
modelled with `Except`/`Option`; a thrown JS error is the `.error`/`none`
case.  Async methods are modelled by their effect on the state between await
points.
-/

namespace WhatsappWizard

/-- Canonical stored message (`processMessage` output in part_002), reduced to
the fields the verified properties depend on: `id` (`messageData.key.id`),
the extracted text, and the `metadata.processed` / `metadata.processedAt`
curation flags. -/
structure StoredMsg where
  id : String
  text : String
  processed : Bool
  processedAt : Option Nat
deriving DecidableEq, Repr

/-- The store's message map: one entry per group id, holding that group's
ordered ledger (`this.messages` in part_002). -/
abbrev Snapshot := List (String × List StoredMsg)

/-- Association-list lookup, modelling JS `Map.get`. -/
def getAssoc {β : Type} (l : List (String × β)) (k : String) : Option β :=
  (l.find? (fun p => p.1 == k)).map (fun p => p.2)

/-- Association-list update-or-insert, modelling JS `Map.set`. -/
def setAssoc {β : Type} (l : List (String × β)) (k : String) (v : β) :
    List (String × β) :=
  if l.any (fun p => p.1 == k) then
    l.map (fun p => if p.1 == k then (k, v) else p)
  else l ++ [(k, v)]

/-- Raw inbound event fields used by the store's filters (part_002
`shouldStoreMessage` / `processMessage`).  `forwardingScore = 0` models an
absent (falsy) `contextInfo.forwardingScore`; `text` is the result of
`extractText` on the payload. -/
structure InEvent where
  keyId : String
  fromMe : Bool
  text : String
  hasMedia : Bool
  forwardingScore : Nat
deriving DecidableEq, Repr

/-- Filters configuration (part_002 `this.filtersConfig`).  A zero
`minLength`/`maxLength` models an unset (falsy) bound, exactly as the JS
short-circuit `this.filtersConfig.minLength && ...` treats it. -/
structure FiltersConfig where
  minLength : Nat
  maxLength : Nat
  excludeMedia : Bool
  excludeForwarded : Bool
deriving DecidableEq, Repr

/-- Anti-detection configuration (part_002 `this.antiDetectionConfig`).
`maxMessagesPerMinute = 0` models the unset (falsy) case, which the JS
`|| 10` replaces by 10. -/
structure AntiDetectionConfig where
  respectRateLimit : Bool
  maxMessagesPerMinute : Nat
deriving DecidableEq, Repr

/-- Scraping configuration (part_002 `this.config`).  `maxMessagesPerGroup =
0` models the unset case, which the JS `|| 1000` replaces by 1000. -/
structure ScrapingConfig where
  enabled : Bool
  maxMessagesPerGroup : Nat
  filters : FiltersConfig
  antiDetection : AntiDetectionConfig
deriving DecidableEq, Repr

/-- In-memory state of `MessageStorage`: `this.messages`,
`this.messageCount`, and `this.rateLimiter` (group id to the time of the last
accepted message). -/
structure StoreState where
  messages : Snapshot
  counts : List (String × Nat)
  rateLimiter : List (String × ℚ)
deriving DecidableEq, Repr

/-- Message filters, part_002 lines 200-229 (`shouldStoreMessage`): length
bounds, media exclusion, forwarded exclusion, and the own-message
(`key.fromMe`) filter. -/
def shouldStoreMessage (f : FiltersConfig) (ev : InEvent) : Bool :=
  if f.minLength ≠ 0 && ev.text.length < f.minLength then false
  else if f.maxLength ≠ 0 && ev.text.length > f.maxLength then false
  else if f.excludeMedia && ev.hasMedia then false
  else if f.excludeForwarded && ev.forwardingScore ≠ 0 then false
  else if ev.fromMe then false
  else true

/-- Effective per-minute cap: the JS `maxMessagesPerMinute || 10`. -/
def mpmEff (cfg : AntiDetectionConfig) : ℚ :=
  if cfg.maxMessagesPerMinute = 0 then 10 else cfg.maxMessagesPerMinute

/-- Rate limiter, part_002 lines 234-248 (`checkRateLimit`): rejects when less
than `60000 / maxMessagesPerMinute` milliseconds passed since this group's
last accepted message; on acceptance records `now` for the group.  Returns
the decision together with the (possibly updated) `rateLimiter` map. -/
def checkRateLimit (cfg : AntiDetectionConfig) (rl : List (String × ℚ))
    (gid : String) (now : ℚ) : Bool × List (String × ℚ) :=
  if !cfg.respectRateLimit then (true, rl)
  else if now - (getAssoc rl gid).getD 0 < 60000 / mpmEff cfg then (false, rl)
  else (true, setAssoc rl gid now)

/-- Canonicalisation of an accepted event into a `StoredMsg` (part_002
`processMessage`): fresh messages carry `processed = false`. -/
def processMessageData (ev : InEvent) : StoredMsg :=
  { id := ev.keyId, text := ev.text, processed := false, processedAt := none }

/-- The bounded ledger append of `addMessage` (part_002 lines 56-69): when the
group's running count has reached capacity, `shift()` evicts the oldest entry
and the count stays put; otherwise the count is incremented; either way the
new message is pushed at the end. -/
def appendBounded {α : Type} (cap : ℕ) (p : List α × ℕ) (m : α) :
    List α × ℕ :=
  if cap ≤ p.2 then (p.1.tail ++ [m], p.2)
  else (p.1 ++ [m], p.2 + 1)

/-- Store gatekeeper, part_002 lines 31-71 (`addMessage`) up to the in-memory
append: filters, rate limit, lazy group initialisation, bounded append.
Returns the new state and whether the event was accepted.  The subsequent
`saveToFile` / `triggerCuration` steps (lines 73-83) act on the persisted
snapshot and are modelled separately by `triggerCuration`. -/
def addMessage (cfg : ScrapingConfig) (st : StoreState) (gid : String)
    (ev : InEvent) (now : ℚ) : StoreState × Bool :=
  if !cfg.enabled then (st, false)
  else if !shouldStoreMessage cfg.filters ev then (st, false)
  else
    match checkRateLimit cfg.antiDetection st.rateLimiter gid now with
    | (false, _) => (st, false)
    | (true, rl2) =>
      let entry := (getAssoc st.messages gid).getD []
      let cnt := (getAssoc st.counts gid).getD 0
      let cap := if cfg.maxMessagesPerGroup = 0 then 1000
                 else cfg.maxMessagesPerGroup
      let step := appendBounded cap (entry, cnt) (processMessageData ev)
      ({ messages := setAssoc st.messages gid step.1,
         counts := setAssoc st.counts gid step.2,
         rateLimiter := rl2 }, true)

/-- Simple candidate format produced by the curator's
`formatMessagesForCuration` (messageStorage.js lines 401-437), reduced to the
fields the verified properties depend on. -/
structure Candidate where
  id : String
  text : String
  groupId : String
deriving DecidableEq, Repr

/-- One item of the ranking response (`items` of the OpenAI JSON answer,
spec interface `rank`).  The JS field `include` is a Lean keyword and is
rendered `included`. -/
structure RankItem where
  id : String
  included : Bool
  relevance : ℚ
deriving DecidableEq, Repr

/-- A curated record of the relevance ledger (`relevant_messages.json`
entries): an original message plus its `curation.relevance` and the
`notified`/`notifiedAt` delivery flags. -/
structure CuratedRecord where
  id : String
  text : String
  groupId : String
  relevance : ℚ
  notified : Bool
  notifiedAt : Option Nat
deriving DecidableEq, Repr

/-- Curator batch formatting, messageStorage.js lines 401-437
(`formatMessagesForCuration`): walk every group and collect exactly the
messages with `metadata.processed` still false, re-tagged with their group
id. -/
def formatMessagesForCuration (data : Snapshot) : List Candidate :=
  data.flatMap (fun g =>
    (g.2.filter (fun m => !m.processed)).map
      (fun m => { id := m.id, text := m.text, groupId := g.1 }))

/-- Ranking call, messageStorage.js lines 488-578 (`curate`).  The transport
call and the `JSON.parse` of the response live inside one `try`; any failure
is caught and the function returns `[]` (it does not rethrow).  `none` models
such a transport/parse failure, `some items` a parsed response (a response
object without an `items` field yields `some []`, the JS `json.items ||
[]`). -/
def curate (resp : Option (List RankItem)) : List RankItem :=
  match resp with
  | none => []
  | some items => items

/-- New curated records built by `saveCuratedMessages` (messageStorage.js
lines 598-614): for each ranking item, look up the original candidate by id
and keep it only when `include` is true. -/
def newRelevantMessages (curatedItems : List RankItem)
    (originalMessages : List Candidate) : List CuratedRecord :=
  curatedItems.filterMap (fun item =>
    match originalMessages.find? (fun m => m.id == item.id) with
    | some om =>
      if item.included then
        some { id := om.id, text := om.text, groupId := om.groupId,
               relevance := item.relevance, notified := false,
               notifiedAt := none }
      else none
    | none => none)

/-- The descending-relevance comparison of the ledger sort, messageStorage.js
line 623: `(a, b) => b.curation.relevance - a.curation.relevance`. -/
def relevanceDescLe (a b : CuratedRecord) : Bool :=
  decide (b.relevance ≤ a.relevance)

/-- Ledger merge, messageStorage.js lines 581-643 (`saveCuratedMessages`):
build the new records, drop those whose id is already present in the existing
ledger, append the rest, and re-sort the whole ledger by descending
relevance.  Returns the `messages` array written back to
`relevant_messages.json`. -/
def saveCuratedMessages (curatedItems : List RankItem)
    (originalMessages : List Candidate) (existing : List CuratedRecord) :
    List CuratedRecord :=
  let newRecs := newRelevantMessages curatedItems originalMessages
  let existingIds := existing.map (fun m => m.id)
  let uniqueNewMessages := newRecs.filter
    (fun m => !(existingIds.contains m.id))
  (existing ++ uniqueNewMessages).mergeSort relevanceDescLe

/-- One curation cycle, messageStorage.js lines 440-485
(`processScrapedMessages`): format the unprocessed backlog; if it is empty
return no processed ids and leave the ledger alone; otherwise rank, merge
into the ledger, and report every candidate id of the batch as processed.
Returns the new ledger and `processedMessageIds`. -/
def processScrapedMessages (data : Snapshot)
    (rankResp : Option (List RankItem)) (existing : List CuratedRecord) :
    List CuratedRecord × List String :=
  let messages := formatMessagesForCuration data
  if messages.isEmpty then (existing, [])
  else
    let curatedItems := curate rankResp
    let ledger := saveCuratedMessages curatedItems messages existing
    (ledger, messages.map (fun m => m.id))

/-- Per-message effect of `markMessagesAsProcessed` (part_002 lines 414-421):
a message whose id is in the batch gets `processed := true` and a fresh
`processedAt`; others are untouched. -/
def markOne (ids : List String) (t : Nat) (m : StoredMsg) : StoredMsg :=
  if ids.contains m.id then
    { m with processed := true, processedAt := some t }
  else m

/-- Processed flagging, part_002 lines 410-426 (`markMessagesAsProcessed`):
applies `markOne` across every group ledger, then persists. -/
def markMessagesAsProcessed (data : Snapshot) (ids : List String) (t : Nat) :
    Snapshot :=
  data.map (fun g => (g.1, g.2.map (markOne ids t)))

/-- Backlog test over a parsed snapshot (the loop of part_002 lines
434-442). -/
def hasUnprocessedCore (data : Snapshot) : Bool :=
  data.any (fun g => g.2.any (fun m => !m.processed))

/-- Backlog gate, part_002 lines 428-447 (`hasUnprocessedMessages`): read and
parse the persisted snapshot; `.error` models any read/parse failure, which
the catch turns into `true`; a parsed object without a `messages` field
(`.ok none`) yields `false`; otherwise scan for an unprocessed message. -/
def hasUnprocessedMessages (r : Except String (Option Snapshot)) : Bool :=
  match r with
  | .error _ => true
  | .ok none => false
  | .ok (some data) => hasUnprocessedCore data

/-- Curation trigger, part_002 lines 449-470 (`triggerCuration`): gate on
`hasUnprocessedMessages`, run one curation cycle, and mark the returned ids
as processed when the list is non-empty.  Returns the new snapshot and the
new relevance ledger. -/
def triggerCuration (data : Snapshot) (rankResp : Option (List RankItem))
    (existing : List CuratedRecord) (t : Nat) :
    Snapshot × List CuratedRecord :=
  if !(hasUnprocessedMessages (.ok (some data))) then (data, existing)
  else
    let r := processScrapedMessages data rankResp existing
    let data2 := if r.2.isEmpty then data
                 else markMessagesAsProcessed data r.2 t
    (data2, r.1)

/-- Delivery loop, part_001 lines 71-85 (`sendNotifications`): one
`sendNotification` attempt per record, in order, recording `(messageId,
success)` for each; no retry.  `outcome id` is the success of the single
transport attempt for that record. -/
def sendNotifications (outcome : String → Bool) (batch : List CuratedRecord) :
    List (String × Bool) :=
  batch.map (fun m => (m.id, outcome m.id))

/-- The ids the orchestrator extracts from the delivery results
(messageStorage.js lines 650-653): exactly the entries whose attempt
succeeded. -/
def successIds (outcome : String → Bool) (batch : List CuratedRecord) :
    List String :=
  ((sendNotifications outcome batch).filter (fun r => r.2)).map
    (fun r => r.1)

/-- Per-record effect of `updateNotificationStatus` (messageStorage.js lines
672-677). -/
def updateOne (ids : List String) (t : Nat) (m : CuratedRecord) :
    CuratedRecord :=
  if ids.contains m.id then { m with notified := true, notifiedAt := some t }
  else m

/-- Notification bookkeeping, messageStorage.js lines 668-689
(`updateNotificationStatus`): flip `notified`/`notifiedAt` on every ledger
record whose id is among the successfully delivered ids. -/
def updateNotificationStatus (led : List CuratedRecord) (ids : List String)
    (t : Nat) : List CuratedRecord :=
  led.map (updateOne ids t)

/-- Method names defined on the `MessageStorage` class of part_002; JS
property lookup of anything else on the instance yields `undefined`. -/
def messageStorageMethods : List String :=
  ["constructor", "addMessage", "processMessage", "extractText",
   "getMessageType", "hasMedia", "extractQuotedMessage",
   "shouldStoreMessage", "checkRateLimit", "humanLikeDelay",
   "getGroupMessages", "getAllMessages", "getStats", "autoSave", "save",
   "load", "clearGroup", "clearAll", "saveToFile",
   "markMessagesAsProcessed", "hasUnprocessedMessages", "triggerCuration"]

/-- The JS group test `from.endsWith('@g.us')`, modelled over the character
list so it is kernel-computable. -/
def endsWithGus (remoteJid : String) : Bool :=
  "@g.us".data.isSuffixOf remoteJid.data

/-- Queue worker body, part_000 lines 42-66 (`MessageQueue.processMessage`):
for a group event it resolves the group name via the cache and then invokes
`this.messageStorage.addMessageFast(...)`.  JS method dispatch is modelled
explicitly: if the property name is among the class's methods the call runs
(`storeCall` stands for whatever that method would do); otherwise the
invocation throws a `TypeError`, which the worker's catch swallows after
logging, leaving the store untouched.  Returns the store state and the
caught error, if any. -/
def queueProcessMessage (storeCall : StoreState → StoreState)
    (st : StoreState) (remoteJid : String) : StoreState × Option String :=
  if endsWithGus remoteJid then
    if messageStorageMethods.contains "addMessageFast" then
      (storeCall st, none)
    else
      (st, some "TypeError: this.messageStorage.addMessageFast is not a function")
  else (st, none)

/-- Phases of one logical curation cycle between its await points: `idle`
(before the snapshot read), `readDone` (the reads of
`hasUnprocessedMessages` and `processScrapedMessages` are done and the
candidate ids are collected — the ranking call is now in flight), `rankDone`
(the ranking call has returned), and `done` (`markMessagesAsProcessed` has
run, or the cycle was skipped on an empty backlog). -/
inductive Phase where
  | idle : Phase
  | readDone : Phase
  | rankDone : Phase
  | done : Phase
deriving DecidableEq, Repr

/-- One logical curation cycle as a three-step task, for reasoning about the
two concurrent trigger points of `triggerCuration`.  `ranked` accumulates
the ids this cycle has submitted to the ranking call. -/
structure CycleTask where
  phase : Phase
  cands : List String
  ranked : List String
deriving DecidableEq, Repr

/-- Candidate ids of the current snapshot, as collected by a cycle's read
step. -/
def candidateIds (data : Snapshot) : List String :=
  (formatMessagesForCuration data).map (fun c => c.id)

/-- One atomic step of a cycle task between await points: read the snapshot
(skipping when the backlog is empty), complete the ranking call, or mark the
batch processed. -/
def stepCycle (snap : Snapshot) (ts : CycleTask) : Snapshot × CycleTask :=
  match ts.phase with
  | .idle =>
    if (candidateIds snap).isEmpty then (snap, { ts with phase := .done })
    else (snap, { ts with phase := .readDone, cands := candidateIds snap })
  | .readDone =>
    (snap, { ts with phase := .rankDone, ranked := ts.ranked ++ ts.cands })
  | .rankDone =>
    (markMessagesAsProcessed snap ts.cands 0, { ts with phase := .done })
  | .done => (snap, ts)

/-- Two concurrently triggered curation cycles sharing the store snapshot:
the after-write trigger and the manual trigger. -/
structure CurSys where
  snap : Snapshot
  t1 : CycleTask
  t2 : CycleTask
deriving DecidableEq, Repr

/-- Scheduler step: `true` advances the first cycle, `false` the second. -/
def stepSys (s : CurSys) (who : Bool) : CurSys :=
  if who then
    let r := stepCycle s.snap s.t1
    { s with snap := r.1, t1 := r.2 }
  else
    let r := stepCycle s.snap s.t2
    { s with snap := r.1, t2 := r.2 }

/-- Run a cooperative schedule over the two cycles. -/
def runSched (sched : List Bool) (s : CurSys) : CurSys :=
  sched.foldl stepSys s

/-- A cycle task that has not started yet. -/
def initTask : CycleTask := { phase := .idle, cands := [], ranked := [] }

/-! Concrete fixtures used by counterexamples and witnesses. -/

/-- Three accepted messages for the capacity scenario. -/
def msgA : StoredMsg :=
  { id := "A", text := "alpha", processed := false, processedAt := none }

/-- Second fixture message. -/
def msgB : StoredMsg :=
  { id := "B", text := "beta", processed := false, processedAt := none }

/-- Third fixture message. -/
def msgC : StoredMsg :=
  { id := "C", text := "gamma", processed := false, processedAt := none }

/-- An already-processed fixture message. -/
def msgP : StoredMsg :=
  { id := "p", text := "tp", processed := true, processedAt := some 0 }

/-- A snapshot with a single unprocessed message `m1` in group `g1`. -/
def snapOne : Snapshot :=
  [("g1", [{ id := "m1", text := "hello", processed := false,
             processedAt := none }])]

/-- Filters configuration with every filter disabled. -/
def permissiveFilters : FiltersConfig :=
  { minLength := 0, maxLength := 0, excludeMedia := false,
    excludeForwarded := false }

/-- Scraping configuration with rate limiting on at 10 messages per
minute. -/
def cfg10 : ScrapingConfig :=
  { enabled := true, maxMessagesPerGroup := 1000,
    filters := permissiveFilters,
    antiDetection := { respectRateLimit := true,
                       maxMessagesPerMinute := 10 } }

/-- A filter-passing inbound event. -/
def evOne : InEvent :=
  { keyId := "e1", fromMe := false, text := "hello world",
    hasMedia := false, forwardingScore := 0 }

/-- The empty store state. -/
def st0 : StoreState := { messages := [], counts := [], rateLimiter := [] }

/-- Store state after one accepted event for group `g` at time 100000. -/
def st1 : StoreState := (addMessage cfg10 st0 "g" evOne 100000).1

/-- Curated ledger record with id `a`. -/
def recA : CuratedRecord :=
  { id := "a", text := "ta", groupId := "g", relevance := 9 / 10,
    notified := false, notifiedAt := none }

/-- Curated ledger record with id `b`. -/
def recB : CuratedRecord :=
  { id := "b", text := "tb", groupId := "g", relevance := 4 / 5,
    notified := false, notifiedAt := none }

/-- Delivery outcome that succeeds exactly for message id `a`. -/
def outcomeA : String → Bool := fun i => i == "a"

/-- Candidate fixture with id `a`. -/
def candA : Candidate := { id := "a", text := "ta", groupId := "g" }

/-- Candidate fixture with id `b`. -/
def candB : Candidate := { id := "b", text := "tb", groupId := "g" }

/-- Two curation cycles over an overlapping candidate set: id `a` is selected
by both cycles. -/
def cycles2 : List (List RankItem × List Candidate) :=
  [([{ id := "a", included := true, relevance := 9 / 10 },
     { id := "b", included := false, relevance := 1 / 10 }],
    [candA, candB]),
   ([{ id := "a", included := true, relevance := 9 / 10 },
     { id := "b", included := true, relevance := 4 / 5 }],
    [candA, candB])]

/-! Helper lemmas shared by the claim theorems. -/

/-- The descending-relevance comparison is transitive. -/
theorem relevanceDescLe_trans : ∀ a b c : CuratedRecord,
    relevanceDescLe a b = true → relevanceDescLe b c = true →
    relevanceDescLe a c = true := by
  intro a b c hab hbc
  simp only [relevanceDescLe, decide_eq_true_eq] at *
  exact le_trans hbc hab

/-- The descending-relevance comparison is total. -/
theorem relevanceDescLe_total : ∀ a b : CuratedRecord,
    (relevanceDescLe a b || relevanceDescLe b a) = true := by
  intro a b
  simp only [relevanceDescLe, Bool.or_eq_true, decide_eq_true_eq]
  exact le_total b.relevance a.relevance

/-- `markOne` never changes a message's id. -/
theorem markOne_id (ids : List String) (t : Nat) (m : StoredMsg) :
    (markOne ids t m).id = m.id := by
  unfold markOne
  split <;> rfl

/-- Destructing membership in the formatted candidate batch: every candidate
comes from an unprocessed stored message. -/
theorem of_mem_format {data : Snapshot} {c : Candidate}
    (h : c ∈ formatMessagesForCuration data) :
    ∃ g, g ∈ data ∧ ∃ m, m ∈ g.2 ∧ m.processed = false ∧
      c = { id := m.id, text := m.text, groupId := g.1 } := by
  rcases List.mem_flatMap.mp h with ⟨g, hg, hc⟩
  rcases List.mem_map.mp hc with ⟨m, hm, rfl⟩
  rcases List.mem_filter.mp hm with ⟨hm2, hp⟩
  exact ⟨g, hg, m, hm2, by simpa using hp, rfl⟩

/-- An unprocessed stored message contributes its id to the candidate
batch. -/
theorem id_mem_candidates_of_unprocessed {data : Snapshot}
    {g : String × List StoredMsg} {m : StoredMsg} (hg : g ∈ data)
    (hm : m ∈ g.2) (hp : m.processed = false) :
    m.id ∈ (formatMessagesForCuration data).map (fun c => c.id) := by
  refine List.mem_map.mpr
    ⟨{ id := m.id, text := m.text, groupId := g.1 }, ?_, rfl⟩
  refine List.mem_flatMap.mpr ⟨g, hg, ?_⟩
  exact List.mem_map.mpr ⟨m, List.mem_filter.mpr ⟨hm, by simp [hp]⟩, rfl⟩

/-- A non-empty unprocessed backlog yields a non-empty candidate batch. -/
theorem format_nonempty_of_core {data : Snapshot}
    (h : hasUnprocessedCore data = true) :
    (formatMessagesForCuration data).isEmpty = false := by
  rcases List.any_eq_true.mp h with ⟨g, hg, hgp⟩
  rcases List.any_eq_true.mp hgp with ⟨m, hm, hmp⟩
  have hp : m.processed = false := by simpa using hmp
  have hmem := id_mem_candidates_of_unprocessed hg hm hp
  rcases List.mem_map.mp hmem with ⟨c, hc, _⟩
  cases hf : formatMessagesForCuration data with
  | nil => rw [hf] at hc; cases hc
  | cons a l => rfl

/-- When the backlog test is false, every stored message is processed. -/
theorem core_false_all_processed {data : Snapshot}
    (h : hasUnprocessedCore data = false) :
    ∀ g ∈ data, ∀ m ∈ g.2, m.processed = true := by
  intro g hg m hm
  have h1 := List.any_eq_false.mp h g hg
  have h2 : g.2.any (fun m => !m.processed) = false := by simpa using h1
  have h3 := List.any_eq_false.mp h2 m hm
  simpa using h3

/-- After `markMessagesAsProcessed` with a batch of ids, none of those ids is
observable as a candidate any more. -/
theorem candidateIds_mark_disjoint (data : Snapshot) (ids : List String)
    (t : Nat) :
    ∀ a ∈ ids, a ∉ candidateIds (markMessagesAsProcessed data ids t) := by
  intro a ha hmem
  rcases List.mem_map.mp hmem with ⟨c, hc, hcid⟩
  rcases of_mem_format hc with ⟨g, hg, m, hm, hp, hcm⟩
  rcases List.mem_map.mp hg with ⟨g0, hg0, hgeq⟩
  have hm2 : m ∈ g0.2.map (markOne ids t) := by
    have : g.2 = g0.2.map (markOne ids t) := by rw [← hgeq]
    rw [← this]; exact hm
  rcases List.mem_map.mp hm2 with ⟨m0, hm0, hmeq⟩
  by_cases hcont : ids.contains m0.id = true
  · have hin : m0.id ∈ ids := List.elem_iff.mp hcont
    rw [← hmeq] at hp
    simp [markOne, hin] at hp
  · have hnm : m0.id ∉ ids := by
      intro hin
      exact hcont (List.elem_iff.mpr hin)
    have hid : c.id = m0.id := by
      rw [hcm, ← hmeq, markOne_id]
    rw [← hcid, hid] at ha
    exact hnm ha

/-- Ids of a `filterMap` whose function preserves ids form a sublist of the
input ids. -/
theorem filterMap_ids_sublist {β γ : Type} (g1 : β → String)
    (g2 : γ → String) (f : β → Option γ)
    (hf : ∀ b c, f b = some c → g2 c = g1 b) (l : List β) :
    ((l.filterMap f).map g2).Sublist (l.map g1) := by
  induction l with
  | nil => simp
  | cons b bs ih =>
    cases hb : f b with
    | none =>
      rw [List.filterMap_cons_none hb, List.map_cons]
      exact ih.cons _
    | some c =>
      rw [List.filterMap_cons_some hb]
      simp only [List.map_cons]
      rw [hf b c hb]
      exact ih.cons₂ _

/-- The look-up function of `newRelevantMessages` preserves the id of the
ranking item it was built from. -/
theorem newRelevant_preserves_id (origs : List Candidate)
    (it : RankItem) (r : CuratedRecord)
    (h : (match origs.find? (fun m => m.id == it.id) with
          | some om =>
            if it.included then
              some { id := om.id, text := om.text, groupId := om.groupId,
                     relevance := it.relevance, notified := false,
                     notifiedAt := (none : Option Nat) }
            else none
          | none => none) = some r) :
    r.id = it.id := by
  cases hfind : origs.find? (fun m => m.id == it.id) with
  | none => rw [hfind] at h; cases h
  | some om =>
    rw [hfind] at h
    by_cases hinc : it.included = true
    · rw [hinc] at h
      simp only [if_true] at h
      have hom : om.id = it.id := by
        have h2 := List.find?_some hfind
        simpa using h2
      have hr := Option.some.inj h
      rw [← hr]
      exact hom
    · have hinc2 : it.included = false := by simpa using hinc
      rw [hinc2] at h
      simp at h

/-- One merge preserves distinctness of ledger ids, provided the current
ranking response itself lists each id at most once. -/
theorem saveCurated_nodup {existing : List CuratedRecord}
    {items : List RankItem} (origs : List Candidate)
    (h0 : (existing.map (fun m => m.id)).Nodup)
    (h1 : (items.map (fun i => i.id)).Nodup) :
    ((saveCuratedMessages items origs existing).map
      (fun m => m.id)).Nodup := by
  unfold saveCuratedMessages
  have hperm :=
    (List.mergeSort_perm
      (existing ++ (newRelevantMessages items origs).filter
        (fun m => !((existing.map (fun m => m.id)).contains m.id)))
      relevanceDescLe).map (fun m => m.id)
  rw [List.Perm.nodup_iff hperm, List.map_append, List.nodup_append]
  refine ⟨h0, ?_, ?_⟩
  · have hsub1 : (((newRelevantMessages items origs).filter
        (fun m => !((existing.map (fun m => m.id)).contains m.id))).map
          (fun m => m.id)).Sublist
        ((newRelevantMessages items origs).map (fun m => m.id)) :=
      (List.filter_sublist _).map _
    have hsub2 : ((newRelevantMessages items origs).map
        (fun m => m.id)).Sublist (items.map (fun i => i.id)) := by
      unfold newRelevantMessages
      exact filterMap_ids_sublist _ _ _
        (fun b c h => newRelevant_preserves_id origs b c h) items
    exact List.Nodup.sublist (hsub1.trans hsub2) h1
  · intro a ha hua
    rcases List.mem_map.mp hua with ⟨m, hmu, hmid⟩
    rcases List.mem_filter.mp hmu with ⟨_, hpred⟩
    have hnm : m.id ∉ existing.map (fun m => m.id) := by
      intro hin
      rw [Bool.not_eq_true', ← Bool.not_eq_true] at hpred
      exact hpred (List.elem_iff.mpr hin)
    rw [← hmid] at ha
    exact hnm ha

/-- Membership in the successfully-delivered id list is exactly membership in
the batch together with a successful outcome. -/
theorem mem_successIds {outcome : String → Bool}
    {batch : List CuratedRecord} {a : String} :
    a ∈ successIds outcome batch ↔
      a ∈ batch.map (fun b => b.id) ∧ outcome a = true := by
  constructor
  · intro h
    rcases List.mem_map.mp h with ⟨r, hr, hfst⟩
    rcases List.mem_filter.mp hr with ⟨hrs, hr2⟩
    rcases List.mem_map.mp hrs with ⟨b, hb, hbeq⟩
    have hid : b.id = a := by rw [← hfst, ← hbeq]
    refine ⟨List.mem_map.mpr ⟨b, hb, hid⟩, ?_⟩
    have : outcome b.id = true := by
      have := hr2
      rw [← hbeq] at this
      exact this
    rw [← hid]
    exact this
  · rintro ⟨ha, hout⟩
    rcases List.mem_map.mp ha with ⟨b, hb, hbid⟩
    refine List.mem_map.mpr ⟨(b.id, outcome b.id), ?_, by simpa using hbid⟩
    refine List.mem_filter.mpr ⟨List.mem_map.mpr ⟨b, hb, rfl⟩, ?_⟩
    show outcome b.id = true
    rw [hbid]
    exact hout

/-- Evaluation of the first scenario call: a filter-passing event at time
100000 for a fresh store is accepted and records the acceptance time for its
group. -/
theorem addMessage_first_eval :
    addMessage cfg10 st0 "g" evOne 100000 =
      ({ messages := [("g", [processMessageData evOne])],
         counts := [("g", 1)],
         rateLimiter := [("g", (100000 : ℚ))] }, true) := by
  have hrl : checkRateLimit cfg10.antiDetection st0.rateLimiter "g" 100000
      = (true, setAssoc st0.rateLimiter "g" 100000) := by
    have hlt : ¬ ((100000 : ℚ) - ((getAssoc st0.rateLimiter "g").getD 0) <
        60000 / mpmEff cfg10.antiDetection) := by
      show ¬ ((100000 : ℚ) - 0 < 60000 / ((10 : ℕ) : ℚ))
      norm_num
    unfold checkRateLimit
    rw [if_neg (by decide), if_neg hlt]
  unfold addMessage
  rw [if_neg (by decide), if_neg (by decide), hrl]
  rfl

/-- The store state after the first accepted scenario call, explicitly. -/
theorem st1_eval :
    st1 = { messages := [("g", [processMessageData evOne])],
            counts := [("g", 1)],
            rateLimiter := [("g", (100000 : ℚ))] } := by
  unfold st1
  rw [addMessage_first_eval]

/-- Evaluation of the second scenario call: the event 1000 milliseconds
after the first acceptance is rejected with no state change. -/
theorem addMessage_second_eval :
    addMessage cfg10 st1 "g" evOne 101000 = (st1, false) := by
  have hlt : (101000 : ℚ) - ((getAssoc st1.rateLimiter "g").getD 0) <
      60000 / mpmEff cfg10.antiDetection := by
    rw [st1_eval]
    show (101000 : ℚ) - 100000 < 60000 / ((10 : ℕ) : ℚ)
    norm_num
  have hrl : checkRateLimit cfg10.antiDetection st1.rateLimiter "g" 101000
      = (false, st1.rateLimiter) := by
    unfold checkRateLimit
    rw [if_neg (by decide), if_pos hlt]
  unfold addMessage
  rw [if_neg (by decide), if_neg (by decide), hrl]

/-! Claim theorems. -/

/-- C4: for every sequence of N accepted messages delivered to a single
source whose ledger capacity is C (at least 1, which the JS `|| 1000`
default guarantees), the source ledger holds exactly the `min N C` most
recent accepted messages — `appendBounded` is the accepted-path ledger
update of `addMessage`, so iterating it from an empty ledger drops exactly
the oldest `N - C` messages, eviction being strictly oldest-first. -/
theorem source_ledger_capacity_bound (cap : ℕ) (l : List StoredMsg)
    (h : 0 < cap) :
    l.foldl (appendBounded cap) ([], 0)
        = (l.drop (l.length - cap), min l.length cap) ∧
      (l.foldl (appendBounded cap) ([], 0)).1.length = min l.length cap := by
  have main : l.foldl (appendBounded cap) ([], 0)
      = (l.drop (l.length - cap), min l.length cap) := by
    induction l using List.reverseRecOn with
    | nil => simp
    | append_singleton l m ih =>
      rw [List.foldl_append, ih]
      by_cases hlen : l.length < cap
      · have h1 : ¬ cap ≤ min l.length cap := by omega
        have h2 : l.length - cap = 0 := by omega
        have h3 : l.length + 1 - cap = 0 := by omega
        simp only [appendBounded, if_neg h1, List.foldl_cons, List.foldl_nil,
          List.length_append, List.length_cons, List.length_nil, h2, h3,
          List.drop_zero]
        refine Prod.ext ?_ ?_
        · simp
        · simp only []
          omega
      · push_neg at hlen
        have h1 : cap ≤ min l.length cap := by omega
        simp only [appendBounded, if_pos h1, List.foldl_cons, List.foldl_nil]
        have htail : (List.drop (l.length - cap) l).tail
            = List.drop (l.length - cap + 1) l :=
          List.tail_drop l (l.length - cap)
        have hd : List.drop (l.length + 1 - cap) (l ++ [m])
            = List.drop (l.length + 1 - cap) l ++ [m] :=
          List.drop_append_of_le_length (by omega)
        refine Prod.ext ?_ ?_
        · simp only [htail]
          simp only [List.length_append, List.length_cons, List.length_nil,
            hd]
          have hn : l.length - cap + 1 = l.length + 1 - cap := by omega
          rw [hn]
        · simp only [List.length_append, List.length_cons, List.length_nil]
          omega
  refine ⟨main, ?_⟩
  rw [main]
  simp only [List.length_drop]
  omega

/-- Witness for C4: a source with capacity 2 receiving A, B, C (all
accepted) ends with ledger `[B, C]` and count 2. -/
theorem source_ledger_capacity_bound_witness :
    0 < 2 ∧
      [msgA, msgB, msgC].foldl (appendBounded 2) ([], 0)
        = ([msgB, msgC], 2) := by
  refine ⟨by decide, ?_⟩
  have h := (source_ledger_capacity_bound 2 [msgA, msgB, msgC]
    (by decide)).1
  simpa using h

/-- C5: after every merge performed by a curation cycle
(`saveCuratedMessages`), the relevance ledger is sorted non-increasing in
the records' relevance score. -/
theorem ledger_sorted_desc_after_merge (curatedItems : List RankItem)
    (originalMessages : List Candidate) (existing : List CuratedRecord) :
    (saveCuratedMessages curatedItems originalMessages existing).Pairwise
      (fun a b => b.relevance ≤ a.relevance) := by
  unfold saveCuratedMessages
  have h := List.sorted_mergeSort relevanceDescLe_trans relevanceDescLe_total
    (existing ++ (newRelevantMessages curatedItems originalMessages).filter
      (fun m => !((existing.map (fun m => m.id)).contains m.id)))
  refine h.imp ?_
  intro a b hab
  simpa [relevanceDescLe] using hab

/-- C10: if reading or parsing the persisted store snapshot fails for any
reason (the `.error` case), `hasUnprocessedMessages` returns `true` — it
never propagates the error (the Lean embedding is a total function, as the
JS catch swallows the exception) and never returns `false` on failure, so a
curation cycle is still attempted. -/
theorem hasUnprocessed_true_on_error (e : String) :
    hasUnprocessedMessages (Except.error e) = true := rfl

/-- C2: the queue worker does not forward dequeued group events to the
store's add operation: the `MessageStorage` class of part_002 defines no
method named `addMessageFast`, so the dispatch in
`MessageQueue.processMessage` throws a `TypeError` for every group event —
whatever the missing method would have done (`storeCall` is universally
quantified), the store state is left untouched and the event is dropped
after the worker's catch logs the error. -/
theorem queue_worker_add_dispatch_fails :
    messageStorageMethods.contains "addMessageFast" = false ∧
      ∀ (storeCall : StoreState → StoreState) (st : StoreState),
        queueProcessMessage storeCall st "123@g.us" =
          (st, some
            "TypeError: this.messageStorage.addMessageFast is not a function") := by
  refine ⟨by decide, ?_⟩
  intro storeCall st
  unfold queueProcessMessage
  rw [if_pos (by decide)]
  rw [if_neg (by decide)]

/-- C3: over every sequence of curation cycles — including cycles over
overlapping candidate sets — the relevance ledger never contains two
`CuratedRecord`s with the same message id: provided each cycle's ranking
response lists every id at most once (the spec's ranking contract), the
merge step of `saveCuratedMessages` excludes any candidate whose id is
already in the ledger, so distinctness of ledger ids is preserved by every
cycle. -/
theorem curated_ledger_ids_nodup (existing : List CuratedRecord)
    (cycles : List (List RankItem × List Candidate))
    (h0 : (existing.map (fun m => m.id)).Nodup)
    (h1 : ∀ c ∈ cycles, ((c.1).map (fun i => i.id)).Nodup) :
    ((cycles.foldl (fun led c => saveCuratedMessages c.1 c.2 led)
        existing).map (fun m => m.id)).Nodup := by
  induction cycles generalizing existing with
  | nil => simpa using h0
  | cons c cs ih =>
    simp only [List.foldl_cons]
    refine ih (saveCuratedMessages c.1 c.2 existing) ?_ ?_
    · exact saveCurated_nodup c.2 h0 (h1 c (by simp))
    · intro d hd
      exact h1 d (by simp [hd])

/-- Witness for C3: two cycles over the overlapping candidate set of `a` and
`b`, with id `a` selected by both, still yield a ledger with distinct
ids. -/
theorem curated_ledger_ids_nodup_witness :
    (([] : List CuratedRecord).map (fun m => m.id)).Nodup ∧
      (∀ c ∈ cycles2, ((c.1).map (fun i => i.id)).Nodup) ∧
      ((cycles2.foldl (fun led c => saveCuratedMessages c.1 c.2 led)
          ([] : List CuratedRecord)).map (fun m => m.id)).Nodup :=
  ⟨by decide, by decide,
    curated_ledger_ids_nodup [] cycles2 (by decide) (by decide)⟩

/-- C1 counterexample: the claim states that a ranking transport/parse
failure aborts the curation cycle with no state change and no candidate
marked processed.  On a snapshot with one unprocessed message `m1` and a
failed ranking call (`none`), `triggerCuration` nevertheless marks `m1` as
processed — `curate` swallows the error and returns `[]`, the cycle
continues, and `markMessagesAsProcessed` runs over the whole candidate
batch. -/
theorem rank_failure_still_marks_processed_cex :
    hasUnprocessedCore snapOne = true ∧
      (triggerCuration snapOne none [] 5).1 =
        [("g1", [{ id := "m1", text := "hello", processed := true,
                   processedAt := some 5 }])] ∧
      (triggerCuration snapOne none [] 5).1 ≠ snapOne := by decide

/-- C1 (amended): a ranking transport/parse failure does not abort the
curation cycle — `curate` catches the error and returns an empty item list,
so the relevance ledger keeps exactly its existing records (nothing added or
removed, the merge only re-sorts), but every candidate in the batch is still
marked processed, so after the cycle no stored message is left unprocessed
and the backlog is not retried. -/
theorem rank_failure_cycle_continues (data : Snapshot)
    (existing : List CuratedRecord) (t : Nat) :
    (∀ g ∈ (triggerCuration data none existing t).1, ∀ m ∈ g.2,
        m.processed = true) ∧
      ((triggerCuration data none existing t).2).Perm existing := by
  by_cases hb : hasUnprocessedCore data = true
  · have hne : (formatMessagesForCuration data).isEmpty = false :=
      format_nonempty_of_core hb
    have hids : ((formatMessagesForCuration data).map
        (fun m => m.id)).isEmpty = false := by
      cases hf : formatMessagesForCuration data with
      | nil => rw [hf] at hne; simp at hne
      | cons a l => simp
    have hstep : triggerCuration data none existing t =
        (markMessagesAsProcessed data
          ((formatMessagesForCuration data).map (fun m => m.id)) t,
         saveCuratedMessages [] (formatMessagesForCuration data) existing) := by
      unfold triggerCuration processScrapedMessages
      simp only [hasUnprocessedMessages, hb, Bool.not_true,
        Bool.false_eq_true, if_false, hne, hids, curate]
    rw [hstep]
    constructor
    · intro g hg m hm
      rcases List.mem_map.mp hg with ⟨g0, hg0, rfl⟩
      rcases List.mem_map.mp hm with ⟨m0, hm0, rfl⟩
      by_cases hp : m0.processed = true
      · by_cases hc : m0.id ∈
            (formatMessagesForCuration data).map (fun m => m.id)
        · simp [markOne, hc]
        · simp [markOne, hc, hp]
      · have hp2 : m0.processed = false := by simpa using hp
        have hc : m0.id ∈
            (formatMessagesForCuration data).map (fun m => m.id) :=
          id_mem_candidates_of_unprocessed hg0 hm0 hp2
        simp [markOne, hc]
    · have hsave : saveCuratedMessages [] (formatMessagesForCuration data)
          existing = existing.mergeSort relevanceDescLe := by
        simp [saveCuratedMessages, newRelevantMessages]
      rw [hsave]
      exact List.mergeSort_perm existing relevanceDescLe
  · have hb2 : hasUnprocessedCore data = false := by simpa using hb
    have hstep : triggerCuration data none existing t = (data, existing) := by
      unfold triggerCuration
      simp [hasUnprocessedMessages, hb2]
    rw [hstep]
    exact ⟨core_false_all_processed hb2, List.Perm.refl existing⟩

/-- C9 counterexample: the claim states that the two trigger points are safe
to invoke concurrently without double-curating, because the processed flag
is set before any next cycle can observe those ids as unprocessed.  Under
the cooperative interleaving the code actually has — the flag is only set
after the ranking call returns — the schedule read1, read2, rank1, rank2
makes both cycles submit the same message `m1` to ranking. -/
theorem concurrent_triggers_double_rank_cex :
    ("m1" ∈ (runSched [true, false, true, false]
        { snap := snapOne, t1 := initTask, t2 := initTask }).t1.ranked) ∧
      ("m1" ∈ (runSched [true, false, true, false]
        { snap := snapOne, t1 := initTask, t2 := initTask }).t2.ranked) := by
  decide

/-- C9 (amended): the two trigger points are not safe to invoke
concurrently — a cycle sets the processed flag only after its ranking call
returns, so a trigger whose snapshot read interleaves before another cycle's
mark step observes the same ids as unprocessed and ranks them again (see the
counterexample).  Serial invocations, however, never double-rank: when one
cycle runs to completion before the other starts, the first cycle's mark
step hides its whole batch from the second read, so the two cycles' ranked
id sets are disjoint. -/
theorem serial_triggers_never_double_rank (data : Snapshot) :
    List.Disjoint
      ((runSched [true, true, true, false, false, false]
        { snap := data, t1 := initTask, t2 := initTask }).t1.ranked)
      ((runSched [true, true, true, false, false, false]
        { snap := data, t1 := initTask, t2 := initTask }).t2.ranked) := by
  by_cases h1 : (candidateIds data).isEmpty = true
  · simp only [runSched, List.foldl_cons, List.foldl_nil, stepSys, stepCycle,
      initTask, h1, if_true]
    intro a ha
    exact absurd ha (List.not_mem_nil a)
  · have h1f : (candidateIds data).isEmpty = false := by simpa using h1
    by_cases h2 : (candidateIds (markMessagesAsProcessed data
        (candidateIds data) 0)).isEmpty = true
    · simp [runSched, stepSys, stepCycle, initTask, h1f, h2]
    · have h2f : (candidateIds (markMessagesAsProcessed data
          (candidateIds data) 0)).isEmpty = false := by simpa using h2
      simp [runSched, stepSys, stepCycle, initTask, h1f, h2f, List.Disjoint]
      intro a ha
      exact candidateIds_mark_disjoint data (candidateIds data) 0 a ha

/-- Witness for the amended C9: with the single-message snapshot, the serial
schedule has the first cycle rank `m1` and the second cycle not rank it. -/
theorem serial_triggers_never_double_rank_witness :
    ("m1" ∈ (runSched [true, true, true, false, false, false]
        { snap := snapOne, t1 := initTask, t2 := initTask }).t1.ranked) ∧
      ("m1" ∉ (runSched [true, true, true, false, false, false]
        { snap := snapOne, t1 := initTask, t2 := initTask }).t2.ranked) :=
  ⟨by decide, serial_triggers_never_double_rank snapOne (by decide)⟩

/-- C6: the processed flag transitions false to true at most once — marking
never clears the flag, re-marking an already-processed id is a no-op on that
flag, and once every copy of an id is processed the id never appears in a
later cycle's candidate batch. -/
theorem processed_flag_monotone :
    (∀ (ids : List String) (t : Nat) (m : StoredMsg), m.processed = true →
        (markOne ids t m).processed = true) ∧
      (∀ (ids : List String) (t : Nat) (m : StoredMsg), m.processed = true →
        (markOne ids t m).processed = m.processed) ∧
      (∀ (data : Snapshot) (i : String),
        (∀ g ∈ data, ∀ m ∈ g.2, m.id = i → m.processed = true) →
        i ∉ (formatMessagesForCuration data).map (fun c => c.id)) := by
  refine ⟨?_, ?_, ?_⟩
  · intro ids t m hp
    unfold markOne
    split <;> simp [hp]
  · intro ids t m hp
    unfold markOne
    split <;> simp [hp]
  · intro data i h hmem
    rcases List.mem_map.mp hmem with ⟨c, hc, hcid⟩
    rcases of_mem_format hc with ⟨g, hg, m, hm, hp, hcm⟩
    have hid : m.id = i := by rw [← hcid, hcm]
    have hcontra := h g hg m hm hid
    rw [hp] at hcontra
    exact Bool.noConfusion hcontra

/-- Witness for C6: marking a processed message keeps the flag at true and
leaves it unchanged, and a snapshot whose only copy of id `p` is processed
yields a candidate batch without `p`. -/
theorem processed_flag_monotone_witness :
    (markOne ["p"] 1 msgP).processed = true ∧
      (markOne ["p"] 1 msgP).processed = msgP.processed ∧
      "p" ∉ (formatMessagesForCuration [("g", [msgP])]).map
        (fun c => c.id) :=
  ⟨processed_flag_monotone.1 ["p"] 1 msgP (by decide),
   processed_flag_monotone.2.1 ["p"] 1 msgP (by decide),
   processed_flag_monotone.2.2 [("g", [msgP])] "p" (by decide)⟩

/-- C7: `addMessage` rejects an event for a source when less than
`60000 / maxMessagesPerMinute` milliseconds have elapsed since that source's
last accepted message, and such a rejection changes no state; with
`maxMessagesPerMinute = 10`, two filter-passing events for the same source
spaced 1000 milliseconds apart yield exactly one acceptance. -/
theorem rate_limit_rejects_within_interval :
    (∀ (cfg : ScrapingConfig) (st : StoreState) (gid : String)
        (ev : InEvent) (now : ℚ),
        cfg.antiDetection.respectRateLimit = true →
        now - ((getAssoc st.rateLimiter gid).getD 0) <
          60000 / mpmEff cfg.antiDetection →
        addMessage cfg st gid ev now = (st, false)) ∧
      ((addMessage cfg10 st0 "g" evOne 100000).2 = true ∧
        addMessage cfg10 st1 "g" evOne 101000 = (st1, false)) := by
  constructor
  · intro cfg st gid ev now hr hlt
    have hcheck : checkRateLimit cfg.antiDetection st.rateLimiter gid now
        = (false, st.rateLimiter) := by
      unfold checkRateLimit
      rw [hr]
      simp only [Bool.not_true, Bool.false_eq_true, if_false]
      rw [if_pos hlt]
    unfold addMessage
    by_cases he : cfg.enabled = true
    · rw [he]
      simp only [Bool.not_true, Bool.false_eq_true, if_false]
      by_cases hs : shouldStoreMessage cfg.filters ev = true
      · rw [hs]
        simp only [Bool.not_true, Bool.false_eq_true, if_false]
        rw [hcheck]
      · have hs2 : shouldStoreMessage cfg.filters ev = false := by
          simpa using hs
        rw [hs2]
        simp
    · have he2 : cfg.enabled = false := by simpa using he
      rw [he2]
      simp
  · constructor
    · rw [addMessage_first_eval]
    · exact addMessage_second_eval

/-- Witness for C7: the second of two filter-passing events for group `g`
spaced 1000 milliseconds apart (with `maxMessagesPerMinute = 10`, so a
6000 millisecond minimum interval) is rejected with no state change. -/
theorem rate_limit_rejects_within_interval_witness :
    (cfg10.antiDetection.respectRateLimit = true ∧
      (101000 : ℚ) - ((getAssoc st1.rateLimiter "g").getD 0) <
        60000 / mpmEff cfg10.antiDetection) ∧
      addMessage cfg10 st1 "g" evOne 101000 = (st1, false) :=
  ⟨⟨by decide,
    by
      rw [st1_eval]
      show (101000 : ℚ) - 100000 < 60000 / ((10 : ℕ) : ℚ)
      norm_num⟩,
    rate_limit_rejects_within_interval.1 cfg10 st1 "g" evOne 101000
      (by decide)
      (by
        rw [st1_eval]
        show (101000 : ℚ) - 100000 < 60000 / ((10 : ℕ) : ℚ)
        norm_num)⟩

/-- C8: the dispatcher records one delivery outcome per record of the batch
(no retry), and afterwards exactly the successfully delivered records of the
batch have `notified = true` with a `notifiedAt` timestamp — a record whose
delivery failed is left untouched, keeping `notified = false`. -/
theorem notification_outcomes_recorded :
    (∀ (led : List CuratedRecord) (ids : List String) (t : Nat),
        updateNotificationStatus led ids t = led.map (updateOne ids t)) ∧
      (∀ (outcome : String → Bool) (batch : List CuratedRecord),
        (sendNotifications outcome batch).map Prod.fst =
            batch.map (fun m => m.id) ∧
          ∀ r ∈ sendNotifications outcome batch, r.2 = outcome r.1) ∧
      (∀ (outcome : String → Bool) (batch : List CuratedRecord) (t : Nat)
          (m : CuratedRecord), m.id ∈ batch.map (fun b => b.id) →
        (outcome m.id = true →
          (updateOne (successIds outcome batch) t m).notified = true ∧
            (updateOne (successIds outcome batch) t m).notifiedAt = some t) ∧
          (outcome m.id = false →
            updateOne (successIds outcome batch) t m = m)) := by
  refine ⟨?_, ?_, ?_⟩
  · intro led ids t
    rfl
  · intro outcome batch
    constructor
    · simp [sendNotifications]
    · intro r hr
      rcases List.mem_map.mp hr with ⟨b, hb, rfl⟩
      rfl
  · intro outcome batch t m hm
    constructor
    · intro hout
      have hmem : m.id ∈ successIds outcome batch :=
        mem_successIds.mpr ⟨hm, hout⟩
      constructor <;> simp [updateOne, hmem]
    · intro hout
      have hmem : m.id ∉ successIds outcome batch := by
        intro hin
        have hc := (mem_successIds.mp hin).2
        rw [hout] at hc
        exact Bool.noConfusion hc
      simp [updateOne, hmem]

/-- Witness for C8: delivery succeeds for record `a` and fails for record
`b`; afterwards `a` is notified with a timestamp while `b` is untouched and
keeps `notified = false`. -/
theorem notification_outcomes_recorded_witness :
    ("a" ∈ [recA, recB].map (fun b => b.id) ∧
      "b" ∈ [recA, recB].map (fun b => b.id)) ∧
      (updateOne (successIds outcomeA [recA, recB]) 7 recA).notified = true ∧
      updateOne (successIds outcomeA [recA, recB]) 7 recB = recB :=
  ⟨⟨by decide, by decide⟩,
    ((notification_outcomes_recorded.2.2 outcomeA [recA, recB] 7 recA
      (by decide)).1 (by decide)).1,
    (notification_outcomes_recorded.2.2 outcomeA [recA, recB] 7 recB
      (by decide)).2 (by decide)⟩

end WhatsappWizard
